import Mathlib

/-!
Verification of the CRITs lookup adapter (`integration.js`).

The JavaScript source is shallowly embedded as pure Lean functions.
Conventions used throughout:

* JavaScript values that can be a string or something of another type
  (`typeof v !== 'string'` covers `undefined` and any non-string value)
  are modelled by `JSValue`.
* Fields read with an `Array.isArray(x)` guard are modelled as
  `Option (List _)`: `none` stands for an absent field or a non-array
  value, `some xs` for an array.
* The asynchronous iteration that `async.each` performs over the entity
  batch is modelled as a deterministic sequential loop in entity order:
  each iteration either skips the entity, appends its results to the
  accumulator, or stops the loop with the first error.  The final
  aggregate callback of `async.each` receives the first error (or null)
  and the code then invokes the user callback with
  `cb(err, lookupResults)`.
* The HTTP transport (`request`) is modelled as a function
  `net : String → NetResponse` from the requested URI to the transport
  error / HTTP response / parsed body triple handed to the callback.
-/

namespace Crits

/-- A JavaScript value that the option validator inspects with
`typeof v !== 'string'`: either a string, or any non-string value
(including `undefined`), collapsed to `JSValue.other`. -/
inductive JSValue where
  | str (s : String)
  | other
deriving DecidableEq, Repr

/-- JavaScript string coercion as it happens inside `+` concatenation:
a string stays itself, `undefined` (and any other non-string stand-in)
prints as the string `undefined`. -/
def JSValue.toStr : JSValue → String
  | .str s => s
  | .other => "undefined"

/-- One entry of a `source` or `campaign` array of a CRITs record:
an object carrying a `name` field. -/
structure SourceEntry where
  name : String
deriving DecidableEq, Repr

/-- A raw record from the remote CRITs API (`body.objects[i]`).
Fields accessed behind an `Array.isArray` guard are `Option (List _)`. -/
structure CritsObject where
  _id : String
  ip : String
  domain : String
  md5 : String
  filename : String
  filenames : List String
  bucket_list : Option (List String)
  campaign : Option (List SourceEntry)
  description : String
  modified : String
  source : Option (List SourceEntry)
  threat_types : List String
deriving DecidableEq, Repr

/-- Parsed JSON body of a CRITs API response: `{ objects: [...] }`. -/
structure Body where
  objects : List CritsObject
deriving DecidableEq, Repr

/-- Transport-level error handed to the `request` callback when the
request itself fails.  `code` is `some c` exactly when the JS error
object has a string `code` property (`typeof err.code === 'string'`);
`serialized` models `JSON.stringify(err)`. -/
structure TransportError where
  code : Option String
  serialized : String
deriving DecidableEq, Repr

/-- HTTP response metadata handed to the `request` callback. -/
structure Response where
  statusCode : Nat
deriving DecidableEq, Repr

/-- Everything the `request` callback receives for one GET:
`(err, response, body)`. -/
structure NetResponse where
  err : Option TransportError
  response : Response
  body : Body
deriving DecidableEq, Repr

/-- The user options object passed to `doLookup`.  The three credential
fields are validated for string-ness, hence `JSValue`; the three lookup
toggles are booleans. -/
structure Options where
  hostname : JSValue
  username : JSValue
  apiKey : JSValue
  lookupIps : Bool
  lookupHashes : Bool
  lookupDomains : Bool
deriving DecidableEq, Repr

/-- An entity object handed to `doLookup` by the host platform; only the
fields the dispatcher and the lookups read are modelled. -/
structure Entity where
  isIP : Bool
  isMD5 : Bool
  isSHA1 : Bool
  isSHA256 : Bool
  isDomain : Bool
  isURL : Bool
  hashType : String
  value : String
deriving DecidableEq, Repr

/-- JavaScript `s.endsWith("/")`: the last character is a slash. -/
def jsEndsWithSlash (s : String) : Bool :=
  s.data.getLast? == some '/'

/-- JavaScript `s.toLowerCase()` (ASCII, as used on hash types/values). -/
def jsToLowerCase (s : String) : String :=
  String.mk (s.data.map Char.toLower)

/-- JavaScript `s.toUpperCase()` (ASCII, as used on hash types). -/
def jsToUpperCase (s : String) : String :=
  String.mk (s.data.map Char.toUpper)

/-- `_getFormattedHostname`: removes the trailing slash if the user
added one (`hostname.substring(0, hostname.length - 1)` is dropping the
last character). -/
def _getFormattedHostname (options : Options) : String :=
  let hostname := options.hostname.toStr
  if jsEndsWithSlash hostname then String.mk hostname.data.dropLast
  else hostname

/-- `_getUriAuthQueryParam`. -/
def _getUriAuthQueryParam (options : Options) : String :=
  "&username=" ++ options.username.toStr ++ "&api_key=" ++ options.apiKey.toStr

/-- `_getHashSampleUri`. -/
def _getHashSampleUri (hashType : String) (value : String) (options : Options) : String :=
  _getFormattedHostname options ++ "/api/v1/samples/?only=filename,campaign,description,modified,source&" ++
    "c-" ++ jsToLowerCase hashType ++ "=" ++ jsToLowerCase value ++ _getUriAuthQueryParam options

/-- `_getPatchDescriptionUri`. -/
def _getPatchDescriptionUri (type : String) (objectId : String) (options : Options) : String :=
  _getFormattedHostname options ++ "/api/v1/" ++ type ++ "/" ++ objectId ++ _getUriAuthQueryParam options

/-- `_getIpUri`. -/
def _getIpUri (value : String) (options : Options) : String :=
  _getFormattedHostname options ++ "/api/v1/ips/?c-ip=" ++ value ++ _getUriAuthQueryParam options

/-- `_getHashUri`. -/
def _getHashUri (hashType : String) (value : String) (options : Options) : String :=
  _getFormattedHostname options ++ "/api/v1/indicators/?c-type=" ++ jsToUpperCase hashType ++
    "&c-lower=" ++ jsToLowerCase value ++ _getUriAuthQueryParam options

/-- `_getCritsHashUrl`. -/
def _getCritsHashUrl (options : Options) (object : CritsObject) : String :=
  _getFormattedHostname options ++ "/indicators/details/" ++ object._id ++ "/"

/-- `_getCritsSampleUrl`. -/
def _getCritsSampleUrl (options : Options) (object : CritsObject) : String :=
  _getFormattedHostname options ++ "/samples/details/" ++ object.md5 ++ "/"

/-- `_getCritsIpUrl`. -/
def _getCritsIpUrl (options : Options) (object : CritsObject) : String :=
  _getFormattedHostname options ++ "/ips/details/" ++ object.ip ++ "/"

/-- `_getCritsDomainUri`. -/
def _getCritsDomainUri (value : String) (options : Options) : String :=
  _getFormattedHostname options ++ "/api/v1/domains/?c-domain=" ++ value ++ _getUriAuthQueryParam options

/-- `_getCritsDomainUrl`. -/
def _getCritsDomainUrl (options : Options) (object : CritsObject) : String :=
  _getFormattedHostname options ++ "/domains/details/" ++ object.domain ++ "/"

/-- `_getErrorMessage(err, response, body)` with its early returns as a
nested match.  Branch by branch: a transport error with a string `code`
returns that code; any other non-null transport error object returns its
JSON serialization; otherwise status 401 returns the authorization
message, any other non-200 status the generic message, and status 200
returns null.  `body` is a parameter of the source function but is never
read. -/
def _getErrorMessage (err : Option TransportError) (response : Response)
    (_body : Body) : Option String :=
  match err with
  | some e =>
    match e.code with
    | some code => some code
    | none => some e.serialized
  | none =>
    if response.statusCode == 401 then
      some "Unauthorized to access CRITs. Please check username and API key"
    else if response.statusCode != 200 then
      some "There was an unknown error accessing CRITs"
    else
      none

/-- `_createSourceMarker`. -/
def _createSourceMarker : String :=
  " <i class=\"bts bt-fw bt-map-marker integration-text-bold-color\"></i>"

/-- `_createCampaignMarkger` (name kept with the typo of the source). -/
def _createCampaignMarkger : String :=
  " <i class=\"fa fa-fw fa-bullhorn integration-text-bold-color\"></i>"

/-- JavaScript `Set.prototype.add` on a string set whose iteration order
is insertion order: the element is appended only if not yet present, so
the first insertion decides the position. -/
def jsSetAdd (s : List String) (x : String) : List String :=
  if s.contains x then s else s ++ [x]

/-- Successive `Set.add` calls of a `forEach` over an array. -/
def jsSetAddAll (s : List String) (xs : List String) : List String :=
  xs.foldl jsSetAdd s

/-- One entry pushed onto `payload.data.details.hashSamples` by
`_lookupHash`; the field names are exactly the keys the source assigns
(note the key is `bucketList`, camel case). -/
structure HashSampleEntry where
  filename : String
  filenames : List String
  critsLookupUrl : String
  bucketList : Option (List String)
  campaign : Option (List SourceEntry)
  description : String
  modified : String
  source : Option (List SourceEntry)
  patchDescriptionUri : String
deriving DecidableEq, Repr

/-- JavaScript property access `sample.bucket_list` as performed by
`_createHashTags`.  `_lookupHash` builds sample entries with the key
`bucketList`, never `bucket_list`, so this access always yields
`undefined`; `Array.isArray(undefined)` is false, modelled as `none`. -/
def HashSampleEntry.bucket_list (_ : HashSampleEntry) : Option (List String) :=
  none

/-- One entry pushed onto `payload.data.details.hashIndicators` by
`_lookupHash`; field names are the keys the source assigns. -/
structure HashIndicatorEntry where
  critsLookupUrl : String
  bucketList : Option (List String)
  campaign : Option (List SourceEntry)
  description : String
  modified : String
  source : Option (List SourceEntry)
  threatTypes : List String
  patchDescriptionUri : String
deriving DecidableEq, Repr

/-- JavaScript property access `indicator.bucket_list` as performed by
`_createHashTags`: the entries carry the key `bucketList` instead, so
the access yields `undefined`, modelled as `none`. -/
def HashIndicatorEntry.bucket_list (_ : HashIndicatorEntry) : Option (List String) :=
  none

/-- The `details` object of a hash lookup payload. -/
structure HashDetails where
  type : String
  hashSamples : List HashSampleEntry
  hashIndicators : List HashIndicatorEntry
deriving DecidableEq, Repr

/-- The `details` object built for one IP or domain record. -/
structure IpDomainDetails where
  type : String
  critsLookupUrl : String
  bucketList : Option (List String)
  campaign : Option (List SourceEntry)
  description : String
  modified : String
  source : Option (List SourceEntry)
  threatTypes : List String
  patchDescriptionUri : String
deriving DecidableEq, Repr

/-- The `details` field of a lookup result: either the per-record shape
of the IP/domain lookups or the merged shape of the hash lookup. -/
inductive LookupDetails where
  | ipdom (d : IpDomainDetails)
  | hash (d : HashDetails)
deriving DecidableEq, Repr

/-- The non-null `data` object of a lookup result. -/
structure LookupData where
  summary : List String
  details : LookupDetails
deriving DecidableEq, Repr

/-- One element of the result array delivered to the host.
`displayValue` is `none` when the source does not set the key;
`data = none` models the explicit `data: null` miss marker. -/
structure LookupResult where
  entity : Entity
  displayValue : Option String
  data : Option LookupData
deriving DecidableEq, Repr

/-- Outcome of one per-entity lookup operation: the URIs it requested
over the network, and either the error passed to its callback or the
result array passed on success. -/
structure LookupOutcome where
  calls : List String
  result : Except String (List LookupResult)
deriving Repr

/-- `_createHashTags`: accumulator for the three insertion-ordered sets
`uniqueSources`, `uniqueCampaigns`, `uniqueBucketLists`. -/
structure TagSets where
  uniqueSources : List String
  uniqueCampaigns : List String
  uniqueBucketLists : List String
deriving DecidableEq, Repr

/-- Body of the two identical `forEach` record loops of
`_createHashTags`: add the source tags, campaign tags and bucket labels
of one record to the three sets, each list only when the field is an
array. -/
def _addRecordTags (acc : TagSets) (source : Option (List SourceEntry))
    (campaign : Option (List SourceEntry)) (bucket : Option (List String)) : TagSets :=
  let acc :=
    match source with
    | some arr =>
      { acc with uniqueSources :=
          jsSetAddAll acc.uniqueSources (arr.map (fun src => src.name ++ _createSourceMarker)) }
    | none => acc
  let acc :=
    match campaign with
    | some arr =>
      { acc with uniqueCampaigns :=
          jsSetAddAll acc.uniqueCampaigns (arr.map (fun c => c.name ++ _createCampaignMarkger)) }
    | none => acc
  match bucket with
  | some arr => { acc with uniqueBucketLists := jsSetAddAll acc.uniqueBucketLists arr }
  | none => acc

/-- The sample-count tag of `_createHashTags` (the source pushes the
same string from both the `=== 1` and the `> 1` branch). -/
def sampleCountTag (n : Nat) : String :=
  toString n ++ " <i class=\"fa fa-bug integration-text-bold-color\"></i>"

/-- `_createHashTags(details)`: the count tag (if there is at least one
sample), then the contents of the three sets in insertion order —
sources, campaigns, bucket labels — collected over `details.hashSamples`
followed by `details.hashIndicators`.  The record loops read
`sample.bucket_list` and `indicator.bucket_list`, the undefined accesses
modelled above. -/
def _createHashTags (details : HashDetails) : List String :=
  let countTags : List String :=
    if details.hashSamples.length == 1 then
      [sampleCountTag details.hashSamples.length]
    else if details.hashSamples.length > 1 then
      [sampleCountTag details.hashSamples.length]
    else
      []
  let sets := details.hashSamples.foldl
    (fun acc sample => _addRecordTags acc sample.source sample.campaign sample.bucket_list)
    ⟨[], [], []⟩
  let sets := details.hashIndicators.foldl
    (fun acc indicator => _addRecordTags acc indicator.source indicator.campaign indicator.bucket_list)
    sets
  countTags ++ sets.uniqueSources ++ sets.uniqueCampaigns ++ sets.uniqueBucketLists

/-- `_createTags(object)`: source tags in array order, then campaign
tags in array order, then the first five bucket labels
(`i < bucket_list.length && i < 5`), no deduplication anywhere. -/
def _createTags (object : CritsObject) : List String :=
  let tags : List String := []
  let tags :=
    match object.source with
    | some src =>
      if src.length > 0 then tags ++ src.map (fun s => s.name ++ _createSourceMarker) else tags
    | none => tags
  let tags :=
    match object.campaign with
    | some camp =>
      if camp.length > 0 then tags ++ camp.map (fun c => c.name ++ _createCampaignMarkger) else tags
    | none => tags
  let tags :=
    match object.bucket_list with
    | some bucket =>
      if bucket.length > 0 then tags ++ bucket.take 5 else tags
    | none => tags
  tags

/-- `_processHashResults(err, response, body, cb)`: classify the raw
response; on error pass the error to the callback, otherwise pass
`body.objects`. -/
def _processHashResults (r : NetResponse) : Except String (List CritsObject) :=
  match _getErrorMessage r.err r.response r.body with
  | some error => Except.error error
  | none => Except.ok r.body.objects

/-- `_lookupHash(entityObj, options, cb)`: two GETs (indicators query
and samples query) run by `async.parallel`; if either errors the whole
lookup fails with that error (the indicators task is started first and
is taken as the tiebreaker in this sequential model), otherwise one
single payload is built from both record lists.  Both GETs are issued
before either outcome is inspected, so both URIs are always recorded as
calls. -/
def _lookupHash (entityObj : Entity) (options : Options)
    (net : String → NetResponse) : LookupOutcome :=
  let indicatorsUri := _getHashUri entityObj.hashType entityObj.value options
  let samplesUri := _getHashSampleUri entityObj.hashType entityObj.value options
  let hashIndicatorsRes := _processHashResults (net indicatorsUri)
  let hashSamplesRes := _processHashResults (net samplesUri)
  { calls := [indicatorsUri, samplesUri]
    result :=
      match hashIndicatorsRes, hashSamplesRes with
      | Except.error err, _ => Except.error err
      | Except.ok _, Except.error err => Except.error err
      | Except.ok hashIndicators, Except.ok hashSamples =>
        let sampleEntries : List HashSampleEntry := hashSamples.map (fun critsObject =>
          { filename := critsObject.filename
            filenames := critsObject.filenames
            critsLookupUrl := _getCritsSampleUrl options critsObject
            bucketList := critsObject.bucket_list
            campaign := critsObject.campaign
            description := critsObject.description
            modified := critsObject.modified
            source := critsObject.source
            patchDescriptionUri := _getPatchDescriptionUri "indicator" critsObject._id options })
        let indicatorEntries : List HashIndicatorEntry := hashIndicators.map (fun critsObject =>
          { critsLookupUrl := _getCritsHashUrl options critsObject
            bucketList := critsObject.bucket_list
            campaign := critsObject.campaign
            description := critsObject.description
            modified := critsObject.modified
            source := critsObject.source
            threatTypes := critsObject.threat_types
            patchDescriptionUri := _getPatchDescriptionUri "indicator" critsObject._id options })
        if hashIndicators.length == 0 && hashSamples.length == 0 then
          Except.ok [{ entity := entityObj, displayValue := none, data := none }]
        else
          let details : HashDetails :=
            { type := "hash", hashSamples := sampleEntries, hashIndicators := indicatorEntries }
          Except.ok [{ entity := entityObj
                       displayValue := none
                       data := some { summary := _createHashTags details
                                      details := LookupDetails.hash details } }] }

/-- `_lookupIP(entityObj, options, cb)`: one GET against the IP query
URI; on classification error fail with it; with zero records one miss
result with `data: null`; with N records one result per record carrying
`displayValue = object.ip` and the per-record details. -/
def _lookupIP (entityObj : Entity) (options : Options)
    (net : String → NetResponse) : LookupOutcome :=
  let uri := _getIpUri entityObj.value options
  let r := net uri
  { calls := [uri]
    result :=
      match _getErrorMessage r.err r.response r.body with
      | some error => Except.error error
      | none =>
        let critObjects := r.body.objects
        if critObjects.length == 0 then
          Except.ok [{ entity := entityObj, displayValue := none, data := none }]
        else
          Except.ok (critObjects.map (fun object =>
            { entity := entityObj
              displayValue := some object.ip
              data := some
                { summary := _createTags object
                  details := LookupDetails.ipdom
                    { type := "ip"
                      critsLookupUrl := _getCritsIpUrl options object
                      bucketList := object.bucket_list
                      campaign := object.campaign
                      description := object.description
                      modified := object.modified
                      source := object.source
                      threatTypes := object.threat_types
                      patchDescriptionUri := _getPatchDescriptionUri "ips" object._id options } } })) }

/-- `_lookupDomains(entityObj, options, cb)`: identical shape to the IP
lookup with the domain query URI, `displayValue = object.domain`,
`type = domain` and patch type segment `domains`. -/
def _lookupDomains (entityObj : Entity) (options : Options)
    (net : String → NetResponse) : LookupOutcome :=
  let uri := _getCritsDomainUri entityObj.value options
  let r := net uri
  { calls := [uri]
    result :=
      match _getErrorMessage r.err r.response r.body with
      | some error => Except.error error
      | none =>
        let critObjects := r.body.objects
        if critObjects.length == 0 then
          Except.ok [{ entity := entityObj, displayValue := none, data := none }]
        else
          Except.ok (critObjects.map (fun object =>
            { entity := entityObj
              displayValue := some object.domain
              data := some
                { summary := _createTags object
                  details := LookupDetails.ipdom
                    { type := "domain"
                      critsLookupUrl := _getCritsDomainUrl options object
                      bucketList := object.bucket_list
                      campaign := object.campaign
                      description := object.description
                      modified := object.modified
                      source := object.source
                      threatTypes := object.threat_types
                      patchDescriptionUri := _getPatchDescriptionUri "domains" object._id options } } })) }

/-- `_validateOptions(options)` with its early returns as nested
matches: hostname must be a string (else `No hostname set`) and
non-empty (else `Hostname must be at least 1 character`), then the API
key, then the username, in that order; null on success. -/
def _validateOptions (options : Options) : Option String :=
  match options.hostname with
  | JSValue.other => some "No hostname set"
  | JSValue.str hostname =>
    if hostname.length == 0 then some "Hostname must be at least 1 character"
    else
      match options.apiKey with
      | JSValue.other => some "No API key set"
      | JSValue.str apiKey =>
        if apiKey.length == 0 then some "API key must be at least 1 character"
        else
          match options.username with
          | JSValue.other => some "No username set"
          | JSValue.str username =>
            if username.length == 0 then some "Username must be at least 1 character"
            else none

/-- What `doLookup` ends up invoking its callback with, together with
the log of URIs requested over the network.  `results = none` models a
callback invocation whose second argument is left undefined
(`cb(validationResult)`), `results = some rs` the two-argument
invocation `cb(err, lookupResults)`. -/
structure DoLookupResult where
  err : Option String
  results : Option (List LookupResult)
  calls : List String
deriving Repr

/-- The dispatch chain inside the `async.each` iteratee of `doLookup`:
IP lookup when `entityObj.isIP && options.lookupIps`, else hash lookup
when one of the three hash flags is set and `options.lookupHashes`, else
domain lookup when `entityObj.isDomain && options.lookupDomains`, else
skip (`none`). -/
def dispatchEntity (entityObj : Entity) (options : Options)
    (net : String → NetResponse) : Option LookupOutcome :=
  if entityObj.isIP && options.lookupIps then
    some (_lookupIP entityObj options net)
  else if (entityObj.isMD5 || entityObj.isSHA1 || entityObj.isSHA256) && options.lookupHashes then
    some (_lookupHash entityObj options net)
  else if entityObj.isDomain && options.lookupDomains then
    some (_lookupDomains entityObj options net)
  else
    none

/-- The `async.each` loop of `doLookup`, sequentialized in entity
order: a skipped entity calls `next(null)`, a successful lookup pushes
its results onto `lookupResults`, and the first error stops the
iteration and fires the aggregate callback, which invokes
`cb(err, lookupResults)` with the results accumulated so far. -/
def doLookupLoop (options : Options) (net : String → NetResponse) :
    List Entity → List LookupResult → List String → DoLookupResult
  | [], lookupResults, calls =>
    { err := none, results := some lookupResults, calls := calls }
  | entityObj :: rest, lookupResults, calls =>
    match dispatchEntity entityObj options net with
    | none => doLookupLoop options net rest lookupResults calls
    | some outcome =>
      match outcome.result with
      | Except.error err =>
        { err := some err, results := some lookupResults, calls := calls ++ outcome.calls }
      | Except.ok results =>
        doLookupLoop options net rest (lookupResults ++ results) (calls ++ outcome.calls)

/-- `doLookup(entities, options, cb)`: validate the options first and,
on a validation error, invoke the callback with only that error
(`cb(validationResult)`, second argument undefined, no network call);
otherwise run the per-entity loop and invoke `cb(err, lookupResults)`. -/
def doLookup (entities : List Entity) (options : Options)
    (net : String → NetResponse) : DoLookupResult :=
  match _validateOptions options with
  | some validationResult => { err := some validationResult, results := none, calls := [] }
  | none => doLookupLoop options net entities [] []

/-! Specification-side definitions, written from the words of the
specification for comparison with the functions embedded from the
source. -/

/-- Stated from the specification of one credential rule: the field is
missing (not a string) or empty, with the corresponding message. -/
def fieldRule (v : JSValue) (missingMsg : String) (emptyMsg : String) : Option String :=
  match v with
  | JSValue.other => some missingMsg
  | JSValue.str s => if s.length == 0 then some emptyMsg else none

/-- Stated from the specification: a credential field is acceptable when
it is present, of string type, and non-empty. -/
def fieldOk (v : JSValue) : Bool :=
  match v with
  | JSValue.str s => s.length != 0
  | JSValue.other => false

/-- Stated from the specification of option validation: the message of
the first violated rule, checked in the order hostname, apiKey,
username; null when all three fields are acceptable. -/
def validateOptionsSpec (options : Options) : Option String :=
  match fieldRule options.hostname "No hostname set" "Hostname must be at least 1 character" with
  | some m => some m
  | none =>
    match fieldRule options.apiKey "No API key set" "API key must be at least 1 character" with
    | some m => some m
    | none =>
      fieldRule options.username "No username set" "Username must be at least 1 character"

/-- Stated from the specification of error classification: a transport
error with a string machine code gives that code; any other non-null
transport error gives its serialization; otherwise status 401 gives the
authorization message, any other non-200 status the generic message,
and no error results otherwise.  The parsed body plays no part. -/
def errorClassificationSpec (err : Option TransportError) (response : Response) : Option String :=
  match err with
  | some e =>
    match e.code with
    | some code => some code
    | none => some e.serialized
  | none =>
    if response.statusCode == 401 then
      some "Unauthorized to access CRITs. Please check username and API key"
    else if response.statusCode != 200 then
      some "There was an unknown error accessing CRITs"
    else
      none

/-! Concrete example inputs used by counterexamples and witnesses. -/

/-- An entity with every flag off, to be specialized. -/
def baseEntity : Entity :=
  { isIP := false, isMD5 := false, isSHA1 := false, isSHA256 := false
    isDomain := false, isURL := false, hashType := "", value := "" }

/-- An IP entity for the value 1.1.1.1. -/
def entIpA : Entity := { baseEntity with isIP := true, value := "1.1.1.1" }

/-- An IP entity for the value 2.2.2.2. -/
def entIpB : Entity := { baseEntity with isIP := true, value := "2.2.2.2" }

/-- An entity recognized only as a URL: no dispatch branch matches. -/
def entUrl : Entity := { baseEntity with isURL := true, value := "https://example.com" }

/-- An MD5 hash entity. -/
def entHash : Entity :=
  { baseEntity with
    isMD5 := true, hashType := "md5", value := "0123456789ABCDEF0123456789ABCDEF" }

/-- A fully valid options object. -/
def exOptions : Options :=
  { hostname := JSValue.str "https://crits.example.com"
    username := JSValue.str "user", apiKey := JSValue.str "key"
    lookupIps := true, lookupHashes := true, lookupDomains := true }

/-- Options whose API key is the empty string (hostname is fine, so the
API key rule is the first violated one). -/
def badOptions : Options :=
  { exOptions with apiKey := JSValue.str "" }

/-- A remote record with IP 1.1.1.1, a duplicated source entry and six
bucket labels. -/
def objA : CritsObject :=
  { _id := "id-a", ip := "1.1.1.1", domain := "a.example.com", md5 := "aa"
    filename := "a.bin", filenames := []
    bucket_list := some ["b1", "b2", "b3", "b4", "b5", "b6"]
    campaign := some [{ name := "campA" }]
    description := "", modified := "", source := some [{ name := "srcA" }, { name := "srcA" }]
    threat_types := [] }

/-- A remote record with IP 2.2.2.2 and no array metadata. -/
def objB : CritsObject :=
  { _id := "id-b", ip := "2.2.2.2", domain := "b.example.com", md5 := "bb"
    filename := "b.bin", filenames := []
    bucket_list := none, campaign := none, description := "", modified := ""
    source := none, threat_types := [] }

/-- A network where every request succeeds with an empty record list. -/
def netEmptyOk : String → NetResponse :=
  fun _ => { err := none, response := { statusCode := 200 }, body := { objects := [] } }

/-- A network where every request comes back with HTTP 401. -/
def net401 : String → NetResponse :=
  fun _ => { err := none, response := { statusCode := 401 }, body := { objects := [] } }

/-- A network where every request succeeds with the two records
`objA`, `objB`. -/
def netTwoIps : String → NetResponse :=
  fun _ => { err := none, response := { statusCode := 200 }, body := { objects := [objA, objB] } }

/-- A network where the IP query for 1.1.1.1 succeeds with one record
and every other request fails with HTTP 401. -/
def netMixed : String → NetResponse :=
  fun uri =>
    if uri == _getIpUri "1.1.1.1" exOptions then
      { err := none, response := { statusCode := 200 }, body := { objects := [objA] } }
    else
      { err := none, response := { statusCode := 401 }, body := { objects := [] } }

/-- The result list of the IP lookup of `entIpA` over `netTwoIps`,
extracted from its (successful) outcome. -/
def exIpResults : List LookupResult :=
  match (_lookupIP entIpA exOptions netTwoIps).result with
  | Except.ok rs => rs
  | Except.error _ => []

/-- The result list of the hash lookup of `entHash` over `netEmptyOk`,
extracted from its (successful) outcome. -/
def exHashResults : List LookupResult :=
  match (_lookupHash entHash exOptions netEmptyOk).result with
  | Except.ok rs => rs
  | Except.error _ => []

/-- A sample entry whose bucketList carries one label and whose source
is the single name OSINT. -/
def sampleA : HashSampleEntry :=
  { filename := "a.bin", filenames := [], critsLookupUrl := ""
    bucketList := some ["evil-tag"], campaign := none
    description := "", modified := "", source := some [{ name := "OSINT" }]
    patchDescriptionUri := "" }

/-- A second sample entry with the same source name OSINT and no bucket
labels. -/
def sampleB : HashSampleEntry :=
  { filename := "b.bin", filenames := [], critsLookupUrl := ""
    bucketList := none, campaign := none
    description := "", modified := "", source := some [{ name := "OSINT" }]
    patchDescriptionUri := "" }

/-- Merged hash details: two samples sharing the source OSINT, the
first carrying the bucket label evil-tag, and no indicators. -/
def exHashDetails : HashDetails :=
  { type := "hash", hashSamples := [sampleA, sampleB], hashIndicators := [] }

/-! Shared helper lemmas. -/

/-- The per-entity loop always produces a results list for the final
callback, whether it completes or stops at an error. -/
theorem doLookupLoop_results_isSome (options : Options) (net : String → NetResponse) :
    ∀ (entities : List Entity) (acc : List LookupResult) (calls : List String),
      (doLookupLoop options net entities acc calls).results.isSome = true := by
  intro entities
  induction entities with
  | nil => intro acc calls; rfl
  | cons entityObj rest ih =>
    intro acc calls
    simp only [doLookupLoop]
    split
    · exact ih acc calls
    · split
      · rfl
      · exact ih _ _

/-- A successful `_processHashResults` hands over exactly the record
array of the response body. -/
theorem processHashResults_ok (r : NetResponse) (l : List CritsObject)
    (h : _processHashResults r = Except.ok l) : l = r.body.objects := by
  unfold _processHashResults at h
  cases herr : _getErrorMessage r.err r.response r.body <;> rw [herr] at h
  · exact (Except.ok.inj h).symm
  · exact absurd h (by simp)

/-! Claim theorems. -/

/-- C5: error classification of a raw response proceeds, in order: a
transport error with a string machine code yields that code; any other
non-null transport error object yields its JSON serialization; else
HTTP 401 yields the fixed authorization message naming username and API
key; else any non-200 status yields the fixed generic unknown-error
message; else the classification is null — independently of the body
and of how many records it contains. -/
theorem getErrorMessage_matches_classification :
    ∀ (err : Option TransportError) (response : Response) (body : Body),
      _getErrorMessage err response body = errorClassificationSpec err response := by
  intro err response body
  cases err with
  | some e => rcases e with ⟨code, serialized⟩; cases code <;> rfl
  | none => rfl

/-- C2: option validation returns null exactly when hostname, username
and apiKey are each present, of string type and non-empty; otherwise it
returns the message of the first violated rule, checked in the order
hostname, apiKey, username; and whenever validation fails, doLookup
invokes the callback with that message, performing zero network calls. -/
theorem validateOptions_first_rule_and_blocks_lookups :
    ∀ (options : Options),
      _validateOptions options = validateOptionsSpec options
      ∧ (_validateOptions options = none ↔
          (fieldOk options.hostname = true ∧ fieldOk options.username = true
            ∧ fieldOk options.apiKey = true))
      ∧ (∀ (entities : List Entity) (net : String → NetResponse) (m : String),
          _validateOptions options = some m →
          doLookup entities options net = { err := some m, results := none, calls := [] }) := by
  intro options
  refine ⟨?_, ?_, ?_⟩
  · rcases options with ⟨h, u, k, li, lh, ld⟩
    cases h <;> cases k <;> cases u <;>
      simp only [_validateOptions, validateOptionsSpec, fieldRule] <;>
      (repeat' split) <;> simp_all
  · rcases options with ⟨h, u, k, li, lh, ld⟩
    cases h <;> cases k <;> cases u <;>
      simp only [_validateOptions, fieldOk] <;>
      (repeat' split) <;> simp_all
  · intro entities net m hm
    simp [doLookup, hm]

/-- Witness for C2: with an empty API key (hostname fine) validation
stops at the API key rule and doLookup issues no network call. -/
theorem validateOptions_first_rule_and_blocks_lookups_witness :
    _validateOptions badOptions = validateOptionsSpec badOptions
    ∧ doLookup [entIpA] badOptions netEmptyOk =
        { err := some "API key must be at least 1 character", results := none, calls := [] } :=
  ⟨(validateOptions_first_rule_and_blocks_lookups badOptions).1,
   (validateOptions_first_rule_and_blocks_lookups badOptions).2.2 [entIpA] netEmptyOk
     "API key must be at least 1 character" rfl⟩

/-- C9: an entity whose type flags match no enabled lookup option is
skipped by the dispatcher: the loop continues on the remaining entities
with the result accumulator and the network-call log unchanged, and no
error arises from it. -/
theorem unsupported_entity_skipped :
    ∀ (options : Options) (net : String → NetResponse) (entityObj : Entity)
      (rest : List Entity) (acc : List LookupResult) (calls : List String),
      (entityObj.isIP && options.lookupIps) = false →
      ((entityObj.isMD5 || entityObj.isSHA1 || entityObj.isSHA256) && options.lookupHashes) = false →
      (entityObj.isDomain && options.lookupDomains) = false →
      doLookupLoop options net (entityObj :: rest) acc calls =
        doLookupLoop options net rest acc calls := by
  intro options net entityObj rest acc calls h1 h2 h3
  simp only [doLookupLoop, dispatchEntity, h1, h2, h3]
  rfl

/-- Witness for C9: a URL-only entity is skipped outright. -/
theorem unsupported_entity_skipped_witness :
    doLookupLoop exOptions netEmptyOk [entUrl] [] [] = doLookupLoop exOptions netEmptyOk [] [] [] :=
  unsupported_entity_skipped exOptions netEmptyOk entUrl [] [] [] rfl rfl rfl

/-- C10: when option validation fails, the callback receives only the
error message — the results argument stays undefined rather than an
empty list — whereas whenever validation passes, the dispatcher
completion always supplies a results list as the second argument. -/
theorem doLookup_callback_shape :
    ∀ (entities : List Entity) (options : Options) (net : String → NetResponse),
      (∀ m, _validateOptions options = some m →
        (doLookup entities options net).results = none
        ∧ (doLookup entities options net).err = some m)
      ∧ (_validateOptions options = none →
        (doLookup entities options net).results.isSome = true) := by
  intro entities options net
  constructor
  · intro m hm
    simp [doLookup, hm]
  · intro hv
    simp only [doLookup, hv]
    exact doLookupLoop_results_isSome options net entities [] []

/-- Witness for C10: with an empty API key the callback gets no results
argument; with valid options it gets one. -/
theorem doLookup_callback_shape_witness :
    ((doLookup [] badOptions netEmptyOk).results = none
      ∧ (doLookup [] badOptions netEmptyOk).err = some "API key must be at least 1 character")
    ∧ (doLookup [] exOptions netEmptyOk).results.isSome = true :=
  ⟨(doLookup_callback_shape [] badOptions netEmptyOk).1 "API key must be at least 1 character" rfl,
   (doLookup_callback_shape [] exOptions netEmptyOk).2 rfl⟩

/-- Counterexample to C1 as stated: over `netMixed` the first IP entity
succeeds with one result and the second fails with HTTP 401, after
which the callback receives both the authorization error and a
one-element result list — partial results are not discarded. -/
theorem doLookup_error_and_results_counterexample :
    (doLookup [entIpA, entIpB] exOptions netMixed).err.isSome = true
    ∧ (doLookup [entIpA, entIpB] exOptions netMixed).results.map List.length = some 1 :=
  ⟨rfl, rfl⟩

/-- C1 as amended: when a per-indicator lookup reports an error, the
loop stops at that entity and the callback receives that single error
together with the partial results accumulated so far (which are kept,
not discarded). -/
theorem lookup_error_delivers_partial_results :
    ∀ (options : Options) (net : String → NetResponse) (entityObj : Entity)
      (rest : List Entity) (acc : List LookupResult) (calls : List String)
      (outcome : LookupOutcome) (e : String),
      dispatchEntity entityObj options net = some outcome →
      outcome.result = Except.error e →
      doLookupLoop options net (entityObj :: rest) acc calls =
        { err := some e, results := some acc, calls := calls ++ outcome.calls } := by
  intro options net entityObj rest acc calls outcome e hd hr
  simp only [doLookupLoop, hd, hr]

/-- Witness for the amended C1: an IP lookup failing with 401 stops the
loop and the already accumulated results ride along with the error. -/
theorem lookup_error_delivers_partial_results_witness :
    doLookupLoop exOptions net401 [entIpA] exIpResults [] =
      { err := some "Unauthorized to access CRITs. Please check username and API key"
        results := some exIpResults
        calls := [] ++ (_lookupIP entIpA exOptions net401).calls } :=
  lookup_error_delivers_partial_results exOptions net401 entIpA [] exIpResults []
    (_lookupIP entIpA exOptions net401)
    "Unauthorized to access CRITs. Please check username and API key" rfl rfl

/-- C3: a successful IP or domain lookup emits exactly one result with
null data when the response carries zero records, and with N positive
records exactly N results whose displayValue is the ip (respectively
domain) field of the corresponding record. -/
theorem ip_domain_lookup_result_shape :
    ∀ (entityObj : Entity) (options : Options) (net : String → NetResponse),
      (∀ rs, (_lookupIP entityObj options net).result = Except.ok rs →
        ((net (_getIpUri entityObj.value options)).body.objects = [] →
          rs = [{ entity := entityObj, displayValue := none, data := none }])
        ∧ ((net (_getIpUri entityObj.value options)).body.objects ≠ [] →
          rs.map (fun r => r.displayValue) =
            (net (_getIpUri entityObj.value options)).body.objects.map
              (fun object => some object.ip)))
      ∧ (∀ rs, (_lookupDomains entityObj options net).result = Except.ok rs →
        ((net (_getCritsDomainUri entityObj.value options)).body.objects = [] →
          rs = [{ entity := entityObj, displayValue := none, data := none }])
        ∧ ((net (_getCritsDomainUri entityObj.value options)).body.objects ≠ [] →
          rs.map (fun r => r.displayValue) =
            (net (_getCritsDomainUri entityObj.value options)).body.objects.map
              (fun object => some object.domain))) := by
  intro entityObj options net
  constructor
  · intro rs h
    simp only [_lookupIP] at h
    cases herr : _getErrorMessage (net (_getIpUri entityObj.value options)).err
        (net (_getIpUri entityObj.value options)).response
        (net (_getIpUri entityObj.value options)).body with
    | some e => rw [herr] at h; exact absurd h (by simp)
    | none =>
      rw [herr] at h
      constructor
      · intro hobj
        rw [hobj] at h
        simp only [List.length_nil] at h
        exact (Except.ok.inj h).symm
      · intro hne
        have hlen : (((net (_getIpUri entityObj.value options)).body.objects.length == 0) = false) := by
          simp [List.length_eq_zero, hne]
        rw [hlen] at h
        simp only [Bool.false_eq_true, if_false] at h
        rw [← Except.ok.inj h]
        simp [List.map_map, Function.comp]
  · intro rs h
    simp only [_lookupDomains] at h
    cases herr : _getErrorMessage (net (_getCritsDomainUri entityObj.value options)).err
        (net (_getCritsDomainUri entityObj.value options)).response
        (net (_getCritsDomainUri entityObj.value options)).body with
    | some e => rw [herr] at h; exact absurd h (by simp)
    | none =>
      rw [herr] at h
      constructor
      · intro hobj
        rw [hobj] at h
        simp only [List.length_nil] at h
        exact (Except.ok.inj h).symm
      · intro hne
        have hlen : (((net (_getCritsDomainUri entityObj.value options)).body.objects.length == 0) = false) := by
          simp [List.length_eq_zero, hne]
        rw [hlen] at h
        simp only [Bool.false_eq_true, if_false] at h
        rw [← Except.ok.inj h]
        simp [List.map_map, Function.comp]

/-- Witness for C3: two records with IPs 1.1.1.1 and 2.2.2.2 yield two
results whose displayValues are exactly those IPs. -/
theorem ip_domain_lookup_result_shape_witness :
    exIpResults.map (fun r => r.displayValue) =
      (netTwoIps (_getIpUri entIpA.value exOptions)).body.objects.map
        (fun object => some object.ip) :=
  ((ip_domain_lookup_result_shape entIpA exOptions netTwoIps).1 exIpResults rfl).2
    (by simp [netTwoIps])

/-- C4: a hash lookup whose two sub-queries both succeed emits exactly
one LookupResult, whose data is null precisely when both queries return
zero records; otherwise the one result carries the single merged
record. -/
theorem hash_lookup_single_merged_result :
    ∀ (entityObj : Entity) (options : Options) (net : String → NetResponse)
      (rs : List LookupResult),
      (_lookupHash entityObj options net).result = Except.ok rs →
      ∃ payload, rs = [payload]
        ∧ (payload.data = none ↔
            ((net (_getHashUri entityObj.hashType entityObj.value options)).body.objects = []
             ∧ (net (_getHashSampleUri entityObj.hashType entityObj.value options)).body.objects = [])) := by
  intro entityObj options net rs h
  simp only [_lookupHash] at h
  cases hInd : _processHashResults (net (_getHashUri entityObj.hashType entityObj.value options)) with
  | error e => rw [hInd] at h; exact absurd h (by simp)
  | ok objsInd =>
    cases hSam : _processHashResults (net (_getHashSampleUri entityObj.hashType entityObj.value options)) with
    | error e => rw [hInd, hSam] at h; exact absurd h (by simp)
    | ok objsSam =>
      simp only [hInd, hSam] at h
      have hIndObjs := processHashResults_ok _ _ hInd
      have hSamObjs := processHashResults_ok _ _ hSam
      by_cases hg : ((objsInd.length == 0 && objsSam.length == 0) = true)
      · rw [if_pos hg] at h
        refine ⟨{ entity := entityObj, displayValue := none, data := none },
          (Except.ok.inj h).symm, ?_⟩
        simp only [true_iff]
        simp only [Bool.and_eq_true, beq_iff_eq, List.length_eq_zero] at hg
        exact ⟨hIndObjs ▸ hg.1, hSamObjs ▸ hg.2⟩
      · rw [if_neg hg] at h
        refine ⟨_, (Except.ok.inj h).symm, ?_⟩
        simp only [Bool.and_eq_true, beq_iff_eq, List.length_eq_zero, not_and_or] at hg
        constructor
        · intro hdata; exact absurd hdata (by simp)
        · intro hboth
          rcases hg with hg | hg
          · exact absurd (hIndObjs.symm ▸ hboth.1) hg
          · exact absurd (hSamObjs.symm ▸ hboth.2) hg

/-- Witness for C4: both sub-queries succeeding with zero records give
exactly one result whose data is null. -/
theorem hash_lookup_single_merged_result_witness :
    ∃ payload, exHashResults = [payload]
      ∧ (payload.data = none ↔
          ((netEmptyOk (_getHashUri entHash.hashType entHash.value exOptions)).body.objects = []
           ∧ (netEmptyOk (_getHashSampleUri entHash.hashType entHash.value exOptions)).body.objects = [])) :=
  hash_lookup_single_merged_result entHash exOptions netEmptyOk exHashResults rfl

/-- C6, evaluated at the failing input: two samples sharing the source
name OSINT, the first carrying the bucket label evil-tag.  The merged
summary contains the sample-count tag and the OSINT source tag exactly
once, but the bucket label never appears: `_createHashTags` reads the
key `bucket_list` while `_lookupHash` stores the labels under the key
`bucketList`, so the bucket group of the claimed ordering is always
empty. -/
theorem createHashTags_drops_bucket_labels :
    _createHashTags exHashDetails = [sampleCountTag 2, "OSINT" ++ _createSourceMarker]
    ∧ "evil-tag" ∉ _createHashTags exHashDetails := by
  constructor
  · rfl
  · decide

/-- C7: for a single remote record the summary has one tag per source
entry and one per campaign entry, in array order and without
deduplication, followed by the first five bucket labels (truncated at
five, duplicates kept). -/
theorem createTags_shape :
    ∀ (object : CritsObject) (src camp : List SourceEntry) (bucket : List String),
      object.source = some src →
      object.campaign = some camp →
      object.bucket_list = some bucket →
      _createTags object =
        src.map (fun s => s.name ++ _createSourceMarker)
          ++ camp.map (fun c => c.name ++ _createCampaignMarkger)
          ++ bucket.take 5 := by
  intro object src camp bucket hs hc hb
  simp only [_createTags, hs, hc, hb]
  cases src <;> cases camp <;> cases bucket <;> simp

/-- Witness for C7: a record with a duplicated source entry, one
campaign and six bucket labels keeps the duplicate and truncates the
labels at five. -/
theorem createTags_shape_witness :
    _createTags objA =
      ([{ name := "srcA" }, { name := "srcA" }] : List SourceEntry).map
          (fun s => s.name ++ _createSourceMarker)
        ++ ([{ name := "campA" }] : List SourceEntry).map
          (fun c => c.name ++ _createCampaignMarkger)
        ++ ["b1", "b2", "b3", "b4", "b5", "b6"].take 5 :=
  createTags_shape objA [{ name := "srcA" }, { name := "srcA" }] [{ name := "campA" }]
    ["b1", "b2", "b3", "b4", "b5", "b6"] rfl rfl rfl

/-- The formatted hostname of options whose hostname carries one
trailing slash equals the one of options without it: the slash is
stripped. -/
theorem formattedHostname_strips_slash :
    ∀ (h : String) (u k : JSValue) (li lh ld : Bool),
      jsEndsWithSlash h = false →
      _getFormattedHostname
          { hostname := JSValue.str (h ++ "/"), username := u, apiKey := k
            lookupIps := li, lookupHashes := lh, lookupDomains := ld } = h
      ∧ _getFormattedHostname
          { hostname := JSValue.str h, username := u, apiKey := k
            lookupIps := li, lookupHashes := lh, lookupDomains := ld } = h := by
  intro h u k li lh ld hslash
  have hdata : (h ++ "/").data = h.data ++ ['/'] := by
    rw [String.data_append]
  have hends : jsEndsWithSlash (h ++ "/") = true := by
    simp [jsEndsWithSlash, hdata]
  constructor
  · simp only [_getFormattedHostname, JSValue.toStr, hends, if_true, hdata]
    rw [List.dropLast_concat]
  · simp [_getFormattedHostname, JSValue.toStr, hslash]

/-- C8: a configured hostname with a single trailing slash and the same
hostname without it produce byte-identical constructed URIs and detail
URLs, for every query value, hash type, object id and record. -/
theorem hostname_trailing_slash_irrelevant :
    ∀ (h value hashType objectId : String) (u k : JSValue) (li lh ld : Bool)
      (object : CritsObject),
      jsEndsWithSlash h = false →
      (let o1 : Options :=
        { hostname := JSValue.str (h ++ "/"), username := u, apiKey := k
          lookupIps := li, lookupHashes := lh, lookupDomains := ld }
       let o2 : Options :=
        { hostname := JSValue.str h, username := u, apiKey := k
          lookupIps := li, lookupHashes := lh, lookupDomains := ld }
       _getIpUri value o1 = _getIpUri value o2
       ∧ _getHashUri hashType value o1 = _getHashUri hashType value o2
       ∧ _getHashSampleUri hashType value o1 = _getHashSampleUri hashType value o2
       ∧ _getCritsDomainUri value o1 = _getCritsDomainUri value o2
       ∧ _getPatchDescriptionUri hashType objectId o1 = _getPatchDescriptionUri hashType objectId o2
       ∧ _getCritsHashUrl o1 object = _getCritsHashUrl o2 object
       ∧ _getCritsSampleUrl o1 object = _getCritsSampleUrl o2 object
       ∧ _getCritsIpUrl o1 object = _getCritsIpUrl o2 object
       ∧ _getCritsDomainUrl o1 object = _getCritsDomainUrl o2 object) := by
  intro h value hashType objectId u k li lh ld object hslash
  obtain ⟨k1, k2⟩ := formattedHostname_strips_slash h u k li lh ld hslash
  refine ⟨?_, ?_, ?_, ?_, ?_, ?_, ?_, ?_, ?_⟩ <;>
    simp [_getIpUri, _getHashUri, _getHashSampleUri, _getCritsDomainUri,
      _getPatchDescriptionUri, _getCritsHashUrl, _getCritsSampleUrl, _getCritsIpUrl,
      _getCritsDomainUrl, _getUriAuthQueryParam, k1, k2]

/-- Witness for C8: the example hostname with and without the trailing
slash builds the same nine URIs and URLs. -/
theorem hostname_trailing_slash_irrelevant_witness :
    (let o1 : Options :=
      { hostname := JSValue.str ("https://crits.example.com" ++ "/")
        username := JSValue.str "user", apiKey := JSValue.str "key"
        lookupIps := true, lookupHashes := true, lookupDomains := true }
     let o2 : Options :=
      { hostname := JSValue.str "https://crits.example.com"
        username := JSValue.str "user", apiKey := JSValue.str "key"
        lookupIps := true, lookupHashes := true, lookupDomains := true }
     _getIpUri "1.2.3.4" o1 = _getIpUri "1.2.3.4" o2
     ∧ _getHashUri "md5" "1.2.3.4" o1 = _getHashUri "md5" "1.2.3.4" o2
     ∧ _getHashSampleUri "md5" "1.2.3.4" o1 = _getHashSampleUri "md5" "1.2.3.4" o2
     ∧ _getCritsDomainUri "1.2.3.4" o1 = _getCritsDomainUri "1.2.3.4" o2
     ∧ _getPatchDescriptionUri "md5" "oid" o1 = _getPatchDescriptionUri "md5" "oid" o2
     ∧ _getCritsHashUrl o1 objA = _getCritsHashUrl o2 objA
     ∧ _getCritsSampleUrl o1 objA = _getCritsSampleUrl o2 objA
     ∧ _getCritsIpUrl o1 objA = _getCritsIpUrl o2 objA
     ∧ _getCritsDomainUrl o1 objA = _getCritsDomainUrl o2 objA) :=
  hostname_trailing_slash_irrelevant "https://crits.example.com" "1.2.3.4" "md5" "oid"
    (JSValue.str "user") (JSValue.str "key") true true true objA rfl

end Crits
